import Mathlib

/-!
Shallow embedding of the two declarative infrastructure stacks of this
repository (the WordPress ALB/ASG/RDS stack `AWSstack` and the EC2 logging
pipeline stack `Ec2LoggingStack`) as resource-graph builders, together with
the bootstrap-script generator.  Each stack constructor is translated into a
pure function from its configuration (`StackProps`) to a resource graph: a
list of `ResourceNode`s in declaration order, each carrying its literal
parameters, its ingress security rules, and the references it holds to other
nodes.  The provisioning framework's primitives that the source calls
(`Peer.anyIpv4`, `Port.tcp`, `SecurityGroup.addIngressRule`,
`Role.addManagedPolicy`, `UserData.addCommands`, `RetentionDays.ONE_WEEK`,
`FilterPattern.allEvents`) are modelled as small Lean definitions with the
framework's documented behaviour.
-/

/-- Subnet type of a subnet configuration entry (`ec2.SubnetType`). -/
inductive SubnetType
  | publicSubnet
  | privateWithEgress
  | privateIsolated
deriving DecidableEq

/-- One entry of a VPC's `subnetConfiguration`. -/
structure SubnetConfig where
  name : String
  subnetType : SubnetType
  cidrMask : Option Nat := none
deriving DecidableEq

/-- The source of an ingress rule: either a raw IPv4 CIDR range or a
reference to another security group (`ec2.Peer` / an `ISecurityGroup`). -/
inductive Peer
  | ipv4 (cidr : String)
  | securityGroup (name : String)
deriving DecidableEq

/-- `ec2.Peer.anyIpv4()`: the open IPv4 range `0.0.0.0/0`. -/
def Peer.anyIpv4 : Peer := .ipv4 "0.0.0.0/0"

/-- A protocol/port pair (`ec2.Port`). -/
structure Port where
  protocol : String
  port : Nat
deriving DecidableEq

/-- `ec2.Port.tcp(n)`. -/
def Port.tcp (n : Nat) : Port := ⟨"tcp", n⟩

/-- One ingress security rule, as added by
`SecurityGroup.addIngressRule(peer, connection, description)`. -/
structure SecurityRule where
  peer : Peer
  connection : Port
  description : String
deriving DecidableEq

/-- The kind of a reference edge held by a node.  Security-rule references
(an ingress rule naming a peer security group) and target membership (a load
balancer's target group naming its fleet) are distinct edge kinds, separate
from plain parameter references. -/
inductive RefKind
  | securityRuleRef
  | targetMembership
  | paramRef
deriving DecidableEq

/-- A CloudWatch Logs filter pattern (`logs.FilterPattern`).  The external
framework represents a pattern by its literal text; the empty pattern
matches every event, and a non-empty literal pattern matches exactly the
events that contain it. -/
structure FilterPattern where
  pattern : String
deriving DecidableEq

/-- `FilterPattern.allEvents()`: the empty pattern. -/
def FilterPattern.allEvents : FilterPattern := ⟨""⟩

/-- Whether `key` occurs as a contiguous subsequence of a character list. -/
def containsSeq (key : List Char) : List Char → Bool
  | [] => key.isEmpty
  | c :: cs => key.isPrefixOf (c :: cs) || containsSeq key cs

/-- Whether a filter pattern matches a log event, under the framework's
documented semantics: the empty pattern matches everything, a literal term
matches the events containing it. -/
def FilterPattern.matches (p : FilterPattern) (event : String) : Bool :=
  p.pattern == "" || containsSeq p.pattern.data event.data

/-- `logs.RetentionDays.ONE_WEEK` has the numeric value 7 (days). -/
def RetentionDays.ONE_WEEK : Nat := 7

/-- A literal or reference value of a resource-node parameter. -/
inductive ParamValue
  | str (s : String)
  | nat (n : Nat)
  | bool (b : Bool)
  | subnet (t : SubnetType)
  | pat (p : FilterPattern)
  | ref (name : String)
  | refList (names : List String)
  | strList (ss : List String)
deriving DecidableEq

/-- The kind of a resource node. -/
inductive NodeKind
  | network
  | securityGroup
  | secret
  | subnetGroup
  | database
  | loadBalancer
  | listener
  | targetGroup
  | identity
  | compute
  | logGroup
  | storage
  | lambdaFunction
  | subscriptionFilter
  | output
deriving DecidableEq

/-- One typed resource declaration of a stack's graph: its kind, construct
id, literal/reference parameters, subnet layout (for network nodes),
ingress rules (for security-group nodes) and outgoing reference edges. -/
structure ResourceNode where
  kind : NodeKind
  name : String
  params : List (String × ParamValue) := []
  subnets : List SubnetConfig := []
  ingress : List SecurityRule := []
  refs : List (RefKind × String) := []
deriving DecidableEq

/-- The configuration input of a stack constructor (`cdk.StackProps`): the
deployment region is the only configuration the two constructors receive. -/
structure StackProps where
  region : String
deriving DecidableEq

/-- A built stack: its region and its resource graph in declaration order. -/
structure Stack where
  region : String
  nodes : List ResourceNode
deriving DecidableEq

/-- An IAM role under construction (`iam.Role`), accumulating managed-policy
attachments. -/
structure Role where
  name : String
  assumedBy : String
  description : String := ""
  managedPolicyArns : List String := []
deriving DecidableEq

/-- `Role.addManagedPolicy`: attach a managed policy to the role.  The
framework renders the role's `ManagedPolicyArns` as a deduplicated string
set, so attaching an already-attached policy leaves the role unchanged. -/
def Role.addManagedPolicy (r : Role) (arn : String) : Role :=
  if arn ∈ r.managedPolicyArns then r
  else { r with managedPolicyArns := r.managedPolicyArns ++ [arn] }

/-- A security group under construction (`ec2.SecurityGroup`), accumulating
ingress rules. -/
structure SecurityGroupDef where
  name : String
  vpc : String
  allowAllOutbound : Bool
  description : String := ""
  ingressRules : List SecurityRule := []
deriving DecidableEq

/-- `SecurityGroup.addIngressRule(peer, connection, description)`. -/
def SecurityGroupDef.addIngressRule (g : SecurityGroupDef) (p : Peer)
    (c : Port) (d : String) : SecurityGroupDef :=
  { g with ingressRules := g.ingressRules ++ [⟨p, c, d⟩] }

/-- Reference edges derived from a security group's ingress rules: one
security-rule reference per peer that is itself a security group. -/
def SecurityGroupDef.ruleRefs (g : SecurityGroupDef) : List (RefKind × String) :=
  g.ingressRules.foldr
    (fun r acc =>
      match r.peer with
      | .securityGroup s => (RefKind.securityRuleRef, s) :: acc
      | .ipv4 _ => acc)
    []

/-- The graph node declared by a finished security group.  Peer security
groups named by its ingress rules become security-rule reference edges. -/
def SecurityGroupDef.toNode (g : SecurityGroupDef) : ResourceNode :=
  { kind := .securityGroup
    name := g.name
    params := [("allowAllOutbound", .bool g.allowAllOutbound),
               ("description", .str g.description),
               ("vpc", .ref g.vpc)]
    ingress := g.ingressRules
    refs := g.ruleRefs }

/-- The graph node declared by a finished IAM role. -/
def Role.toNode (r : Role) : ResourceNode :=
  { kind := .identity
    name := r.name
    params := [("assumedBy", .str r.assumedBy),
               ("description", .str r.description),
               ("managedPolicyArns", .strList r.managedPolicyArns)] }

/-- Join a list of script lines into one character blob separated by
newline characters: the rendering of an instance's user data. -/
def joinChars : List (List Char) → List Char
  | [] => []
  | [l] => l
  | l :: l' :: ls => l ++ '\n' :: joinChars (l' :: ls)

/-- Instance user data under construction (`ec2.UserData`): the ordered
sequence of shell command lines. -/
structure UserData where
  lines : List String
deriving DecidableEq

/-- `UserData.forLinux()`: empty user data. -/
def UserData.forLinux : UserData := ⟨[]⟩

/-- `UserData.addCommands(...)`: append command lines in order. -/
def UserData.addCommands (u : UserData) (cmds : List String) : UserData :=
  ⟨u.lines ++ cmds⟩

/-- Render a command list into the script blob: the lines joined by
newline characters, with no reordering or interpretation. -/
def renderScript (cmds : List String) : String :=
  ⟨joinChars (cmds.map String.data)⟩

/-- `UserData.render()`: the script blob of the accumulated commands. -/
def UserData.render (u : UserData) : String :=
  renderScript u.lines

/-- Split a character blob at newline characters (accumulator holds the
current line reversed). -/
def splitLinesAux : List Char → List Char → List (List Char)
  | [], acc => [acc.reverse]
  | c :: cs, acc =>
    if c = '\n' then acc.reverse :: splitLinesAux cs []
    else splitLinesAux cs (c :: acc)

/-- The lines of a script blob: the blob split at newline boundaries. -/
def scriptLines (s : String) : List (List Char) :=
  splitLinesAux s.data []

/-- The node names a parameter value refers to. -/
def ParamValue.refNames : ParamValue → List String
  | .ref s => [s]
  | .refList l => l
  | _ => []

/-- All node names a node references: its explicit reference edges together
with every reference held inside its parameters. -/
def refsOf (n : ResourceNode) : List String :=
  n.refs.map Prod.snd ++ (n.params.map Prod.snd).flatMap ParamValue.refNames

/-- The names of a graph's nodes, in declaration order. -/
def nodeNames (g : List ResourceNode) : List String :=
  g.map ResourceNode.name

/-- Look a node up by name. -/
def getNode (g : List ResourceNode) (s : String) : Option ResourceNode :=
  g.find? (fun n => n.name == s)

/-- Look a parameter of a node up by key. -/
def paramOf (n : ResourceNode) (key : String) : Option ParamValue :=
  (n.params.find? (fun kv => kv.1 == key)).map Prod.snd

/-- The names of the security groups attached to a node, through its
`securityGroup` or `securityGroups` parameter. -/
def attachedSGNames (n : ResourceNode) : List String :=
  (match paramOf n "securityGroup" with
   | some (.ref s) => [s]
   | _ => []) ++
  (match paramOf n "securityGroups" with
   | some (.refList l) => l
   | _ => [])

/-- Whether a node is a load-balancer node. -/
def isLB (n : ResourceNode) : Bool :=
  match n.kind with
  | .loadBalancer => true
  | _ => false

/-- Whether a node is a compute node (an instance or an autoscaling
fleet). -/
def isCompute (n : ResourceNode) : Bool :=
  match n.kind with
  | .compute => true
  | _ => false

/-- Whether a node is a database node. -/
def isDatabase (n : ResourceNode) : Bool :=
  match n.kind with
  | .database => true
  | _ => false

/-- Whether a node is a network (VPC) node. -/
def isNetwork (n : ResourceNode) : Bool :=
  match n.kind with
  | .network => true
  | _ => false

/-- The names of the security groups attached to the graph's load
balancers. -/
def albSGNames (g : List ResourceNode) : List String :=
  (g.filter isLB).flatMap attachedSGNames

/-- The security-group nodes attached to a node, resolved in the graph. -/
def sgsOf (g : List ResourceNode) (n : ResourceNode) : List ResourceNode :=
  (attachedSGNames n).filterMap (getNode g)

/-- Whether an ingress source is a reference to a security group (as
opposed to a raw CIDR range). -/
def Peer.isSecurityGroupRef : Peer → Bool
  | .securityGroup _ => true
  | .ipv4 _ => false

/-- The declared NAT gateway count of a network node, when present. -/
def natGatewaysOf (v : ResourceNode) : Option Nat :=
  match paramOf v "natGateways" with
  | some (.nat k) => some k
  | _ => none

/-- Every reference held by any node of the graph names a node present in
the graph. -/
def NoDangling (g : List ResourceNode) : Prop :=
  ∀ n ∈ g, ∀ r ∈ refsOf n, ∃ m ∈ g, m.name = r

/-- The dependency edge relation of a graph: node `a` references node
`b`. -/
def edgeRel (g : List ResourceNode) (a b : String) : Prop :=
  ∃ n ∈ g, n.name = a ∧ b ∈ refsOf n

/-- A graph is acyclic when no node reaches itself through a nonempty
chain of reference edges. -/
def Acyclic (g : List ResourceNode) : Prop :=
  ∀ a, ¬ Relation.TransGen (edgeRel g) a a

/-- The security group has an ingress rule admitting TCP port 80 from the
open IPv4 range. -/
def permitsTcp80FromAnywhere (sg : ResourceNode) : Prop :=
  ∃ r ∈ sg.ingress, r.connection = Port.tcp 80 ∧ r.peer = Peer.anyIpv4

/-- Least-privilege chaining between the load balancer and the compute
fleet: every security group attached to a load balancer permits TCP port 80
from any IPv4 address, and every ingress rule on port 80 of a security
group attached to a compute node has as its source a security group
attached to one of the graph's load balancers — never an address range. -/
def leastPrivilegeChain (g : List ResourceNode) : Prop :=
  (∀ n ∈ g, isLB n = true → ∀ sg ∈ sgsOf g n, permitsTcp80FromAnywhere sg) ∧
  (∀ n ∈ g, isCompute n = true → ∀ sg ∈ sgsOf g n,
      ∀ r ∈ sg.ingress, r.connection.port = 80 →
        ∃ a ∈ albSGNames g, r.peer = Peer.securityGroup a)

/-- Every database node's security groups admit ingress only on TCP port
3306 and only from a security group attached to a compute node of the same
graph, never from a raw CIDR range. -/
def dbReachableOnlyFromFleet (g : List ResourceNode) : Prop :=
  ∀ n ∈ g, isDatabase n = true →
    sgsOf g n ≠ [] ∧
    ∀ sg ∈ sgsOf g n,
      sg.ingress ≠ [] ∧
      ∀ r ∈ sg.ingress,
        r.connection = Port.tcp 3306 ∧
        r.peer.isSecurityGroupRef = true ∧
        ∃ f ∈ g, isCompute f = true ∧
          ∃ s2 ∈ attachedSGNames f, r.peer = Peer.securityGroup s2

/-- A network node's subnet layout keeps public and private subnets
separate: no subnet name carries two different subnet types. -/
def subnetsSeparated (n : ResourceNode) : Prop :=
  ∀ s1 ∈ n.subnets, ∀ s2 ∈ n.subnets,
    s1.name = s2.name → s1.subnetType = s2.subnetType

/-- The node is placed in private (with-egress) subnets. -/
def placedInPrivate (n : ResourceNode) : Prop :=
  paramOf n "vpcSubnets" = some (.subnet .privateWithEgress)

/-- Every node placed in private subnets has internet reachability only via
an egress path and accepts no inbound path from the internet: its VPC
declares at least one NAT gateway, every ingress rule of every attached
security group has a security group (never an address range) as its source,
and the node is not declared publicly accessible. -/
def privateEgressOnly (g : List ResourceNode) : Prop :=
  ∀ n ∈ g, placedInPrivate n →
    (∃ v ∈ g, paramOf n "vpc" = some (.ref v.name) ∧
       1 ≤ (natGatewaysOf v).getD 0) ∧
    (∀ sg ∈ sgsOf g n, ∀ r ∈ sg.ingress,
       r.peer.isSecurityGroupRef = true) ∧
    paramOf n "publiclyAccessible" ≠ some (.bool true)

/-- Every network node of the graph separates its public subnets from its
private ones. -/
def networksSeparated (g : List ResourceNode) : Prop :=
  ∀ n ∈ g, isNetwork n = true → subnetsSeparated n

instance (g : List ResourceNode) : Decidable (NoDangling g) := by
  unfold NoDangling; infer_instance

instance (sg : ResourceNode) : Decidable (permitsTcp80FromAnywhere sg) := by
  unfold permitsTcp80FromAnywhere; infer_instance

instance (g : List ResourceNode) : Decidable (leastPrivilegeChain g) := by
  unfold leastPrivilegeChain; infer_instance

instance (g : List ResourceNode) : Decidable (dbReachableOnlyFromFleet g) := by
  unfold dbReachableOnlyFromFleet; infer_instance

instance (n : ResourceNode) : Decidable (subnetsSeparated n) := by
  unfold subnetsSeparated; infer_instance

instance (n : ResourceNode) : Decidable (placedInPrivate n) := by
  unfold placedInPrivate; infer_instance

instance (g : List ResourceNode) : Decidable (privateEgressOnly g) := by
  unfold privateEgressOnly; infer_instance

instance (g : List ResourceNode) : Decidable (networksSeparated g) := by
  unfold networksSeparated; infer_instance

/-- The characters of a quoted value: everything up to the closing double
quote. -/
def takeUntilQuote : List Char → List Char
  | [] => []
  | c :: cs => if c = '"' then [] else c :: takeUntilQuote cs

/-- Extract every quoted value that directly follows an occurrence of
`key` in a character blob, in order of occurrence. -/
def extractKeyed (key : List Char) : List Char → List (List Char)
  | [] => []
  | c :: cs =>
    if key.isPrefixOf (c :: cs) then
      takeUntilQuote ((c :: cs).drop key.length) :: extractKeyed key cs
    else
      extractKeyed key cs

/-- The characters of the JSON key (with its separator and opening quote)
that introduces a log-group name inside a CloudWatch-agent
configuration. -/
def logGroupNameKey : List Char :=
  ("\"log_group_name\": \"").data

namespace AWSstack

/-- The VPC `MyAppVPC`: two AZs, two NAT gateways, one public and one
private (with egress) subnet group of mask 24 each. -/
def vpcNode : ResourceNode :=
  { kind := .network
    name := "MyAppVPC"
    params := [("cidr", .str "10.0.0.0/16"),
               ("maxAzs", .nat 2),
               ("natGateways", .nat 2)]
    subnets := [⟨"PublicSubnet", .publicSubnet, some 24⟩,
                ⟨"PrivateSubnet", .privateWithEgress, some 24⟩] }

/-- `ALBSecurityGroup`: accepts HTTP from the internet. -/
def albSecurityGroup : SecurityGroupDef :=
  (SecurityGroupDef.mk "ALBSecurityGroup" "MyAppVPC" true
      "Security group for ALB" []).addIngressRule
    Peer.anyIpv4 (Port.tcp 80) "Allow HTTP from Internet"

/-- `EC2SecurityGroup`: accepts HTTP only from the ALB's security group. -/
def ec2SecurityGroup : SecurityGroupDef :=
  (SecurityGroupDef.mk "EC2SecurityGroup" "MyAppVPC" true
      "Security group for EC2 in private subnet" []).addIngressRule
    (Peer.securityGroup "ALBSecurityGroup") (Port.tcp 80) "Allow HTTP from ALB"

/-- `RDSSecurityGroup`: accepts MySQL only from the EC2 security group. -/
def rdsSecurityGroup : SecurityGroupDef :=
  (SecurityGroupDef.mk "RDSSecurityGroup" "MyAppVPC" true
      "Security group for RDS in private subnet" []).addIngressRule
    (Peer.securityGroup "EC2SecurityGroup") (Port.tcp 3306) "Allow MySQL access from EC2"

/-- The Secrets Manager secret `DBSecret` holding the database
credentials. -/
def dbSecretNode : ResourceNode :=
  { kind := .secret
    name := "DBSecret"
    params := [("secretStringTemplate", .str "\x7b\"username\":\"admin\"\x7d"),
               ("generateStringKey", .str "password"),
               ("excludePunctuation", .bool true),
               ("includeSpace", .bool false)] }

/-- The RDS subnet group `DBSubnetGroup`, placed in the private subnets. -/
def dbSubnetGroupNode : ResourceNode :=
  { kind := .subnetGroup
    name := "DBSubnetGroup"
    params := [("vpc", .ref "MyAppVPC"),
               ("description", .str "Subnet group for RDS"),
               ("subnetGroupName", .str "PrivateSubnetGroup"),
               ("vpcSubnets", .subnet .privateWithEgress),
               ("removalPolicy", .str "DESTROY")] }

/-- The multi-AZ MySQL instance `MyRDSInstance`. -/
def dbInstanceNode : ResourceNode :=
  { kind := .database
    name := "MyRDSInstance"
    params := [("engine", .str "mysql"),
               ("engineVersion", .str "8.0"),
               ("instanceType", .str "t3.small"),
               ("vpc", .ref "MyAppVPC"),
               ("vpcSubnets", .subnet .privateWithEgress),
               ("credentials", .ref "DBSecret"),
               ("multiAz", .bool true),
               ("allocatedStorage", .nat 20),
               ("maxAllocatedStorage", .nat 100),
               ("securityGroups", .refList ["RDSSecurityGroup"]),
               ("subnetGroup", .ref "DBSubnetGroup"),
               ("publiclyAccessible", .bool false),
               ("removalPolicy", .str "DESTROY"),
               ("deletionProtection", .bool false),
               ("databaseName", .str "wordpressdb")] }

/-- The internet-facing application load balancer `MyALB`. -/
def albNode : ResourceNode :=
  { kind := .loadBalancer
    name := "MyALB"
    params := [("vpc", .ref "MyAppVPC"),
               ("internetFacing", .bool true),
               ("securityGroup", .ref "ALBSecurityGroup"),
               ("loadBalancerName", .str "MyWordPressALB")] }

/-- The instance role `EC2Role` with the SSM managed policy attached. -/
def ec2Role : Role :=
  (Role.mk "EC2Role" "ec2.amazonaws.com" "Role for EC2 instances"
      []).addManagedPolicy "AmazonSSMManagedInstanceCore"

/-- The bootstrap user data of the WordPress fleet: the command lines in
their source order. -/
def userData : UserData :=
  UserData.forLinux.addCommands
    ["#!/bin/bash",
     "# 1. パッケージの更新",
     "yum update -y",
     "# 2. Apache HTTPサーバーのインストールと自動起動設定",
     "yum install -y httpd",
     "systemctl enable httpd",
     "systemctl start httpd",
     "# 3. \"Hello World\" を返す単純なHTMLファイル作成",
     "echo \"<html><h1>Hello World</h1></html>\" > /var/www/html/index.html",
     "# 4. (任意) パーミッションや所有者設定の整備",
     "chown apache:apache /var/www/html/index.html",
     "chmod 644 /var/www/html/index.html"]

/-- The autoscaling fleet `WordPressASG`, placed in the private subnets
behind the EC2 security group, booting with the user data. -/
def asgNode : ResourceNode :=
  { kind := .compute
    name := "WordPressASG"
    params := [("vpc", .ref "MyAppVPC"),
               ("instanceType", .str "t3.micro"),
               ("machineImage", .str "AmazonLinux"),
               ("role", .ref "EC2Role"),
               ("securityGroup", .ref "EC2SecurityGroup"),
               ("desiredCapacity", .nat 2),
               ("minCapacity", .nat 2),
               ("maxCapacity", .nat 4),
               ("vpcSubnets", .subnet .privateWithEgress),
               ("userData", .str userData.render)] }

/-- The ALB's HTTP listener `HTTPListener`. -/
def listenerNode : ResourceNode :=
  { kind := .listener
    name := "HTTPListener"
    params := [("loadBalancer", .ref "MyALB"),
               ("port", .nat 80),
               ("open", .bool true)] }

/-- The listener's target group `WordPressFleet`, whose membership edge
points at the autoscaling fleet. -/
def targetGroupNode : ResourceNode :=
  { kind := .targetGroup
    name := "WordPressFleet"
    params := [("listener", .ref "HTTPListener"),
               ("port", .nat 80),
               ("healthCheckPath", .str "/"),
               ("healthCheckIntervalSeconds", .nat 30)]
    refs := [(.targetMembership, "WordPressASG")] }

/-- The stack output exposing the ALB's DNS name. -/
def dnsOutputNode : ResourceNode :=
  { kind := .output
    name := "LoadBalancerDNS"
    params := [("description", .str "DNS Name of the ALB"),
               ("value", .ref "MyALB")] }

/-- The stack output exposing the database endpoint address. -/
def dbEndpointOutputNode : ResourceNode :=
  { kind := .output
    name := "DBEndpoint"
    params := [("description", .str "Endpoint of the RDS DB"),
               ("value", .ref "MyRDSInstance")] }

/-- The resource graph the `AWSstack` constructor declares, in declaration
order. -/
def graphNodes : List ResourceNode :=
  [vpcNode,
   albSecurityGroup.toNode,
   ec2SecurityGroup.toNode,
   rdsSecurityGroup.toNode,
   dbSecretNode,
   dbSubnetGroupNode,
   dbInstanceNode,
   albNode,
   ec2Role.toNode,
   asgNode,
   listenerNode,
   targetGroupNode,
   dnsOutputNode,
   dbEndpointOutputNode]

/-- The `AWSstack` builder: the stack produced from a configuration. -/
def stack (props : StackProps) : Stack :=
  { region := props.region
    nodes := graphNodes }

end AWSstack

/-- `applyRemovalPolicy`: record a removal policy on an already-declared
node. -/
def ResourceNode.applyRemovalPolicy (n : ResourceNode) (p : String) : ResourceNode :=
  { n with params := n.params ++ [("removalPolicy", .str p)] }

namespace Ec2LoggingStack

/-- The VPC `AppVPC`: two AZs, a single public subnet group. -/
def vpcNode : ResourceNode :=
  { kind := .network
    name := "AppVPC"
    params := [("maxAzs", .nat 2)]
    subnets := [⟨"public", .publicSubnet, none⟩] }

/-- The instance role `EC2Role`, with the `CloudWatchAgentServerPolicy`
managed policy attached twice in a row, exactly as the source does. -/
def ec2Role : Role :=
  ((Role.mk "EC2Role" "ec2.amazonaws.com" ""
      []).addManagedPolicy "CloudWatchAgentServerPolicy").addManagedPolicy
    "CloudWatchAgentServerPolicy"

/-- The log group `AppLogGroup` with one week of retention, as declared
(the destroy removal policy is applied to it later in the constructor). -/
def logGroupNode : ResourceNode :=
  { kind := .logGroup
    name := "AppLogGroup"
    params := [("logGroupName", .str "/ec2/app/logs"),
               ("retention", .nat RetentionDays.ONE_WEEK)] }

/-- The instance security group `WebSG`: HTTP, SSH and HTTPS from any IPv4
address. -/
def securityGroup : SecurityGroupDef :=
  (((SecurityGroupDef.mk "WebSG" "AppVPC" true ""
        []).addIngressRule Peer.anyIpv4 (Port.tcp 80)
      "Allow HTTP traffic").addIngressRule Peer.anyIpv4 (Port.tcp 22)
    "Allow SSH").addIngressRule Peer.anyIpv4 (Port.tcp 443) "Allow HTTPS traffic"

/-- The bootstrap user data of the logging instance: package installs,
service enablement, the embedded multi-line CloudWatch-agent configuration
write, and the agent start command, in their source order. -/
def userData : UserData :=
  UserData.forLinux.addCommands
    ["yum update -y",
     "yum install -y httpd amazon-cloudwatch-agent",
     "systemctl start httpd",
     "systemctl enable httpd",
     "echo \"<html><head><title>Hello</title></head><body><h1>Hello World</h1></body></html>\" > /var/www/html/index.html",
     "cat <<EOF > /opt/aws/amazon-cloudwatch-agent/bin/config.json",
     "\x7b",
     "  \"logs\": \x7b",
     "    \"logs_collected\": \x7b",
     "      \"files\": \x7b",
     "        \"collect_list\": [",
     "          \x7b",
     "            \"file_path\": \"/var/log/httpd/access_log\",",
     "            \"log_group_name\": \"/ec2/app/logs\",",
     "            \"log_stream_name\": \"\x7binstance_id\x7d/access_log\",",
     "            \"timestamp_format\": \"%d/%b/%Y:%H:%M:%S %z\"",
     "          \x7d,",
     "          \x7b",
     "            \"file_path\": \"/var/log/httpd/error_log\",",
     "            \"log_group_name\": \"/ec2/app/logs\",",
     "            \"log_stream_name\": \"\x7binstance_id\x7d/error_log\",",
     "            \"timestamp_format\": \"%Y/%m/%d %H:%M:%S\"",
     "          \x7d",
     "        ]",
     "      \x7d",
     "    \x7d",
     "  \x7d",
     "\x7d",
     "EOF",
     "/opt/aws/amazon-cloudwatch-agent/bin/amazon-cloudwatch-agent-ctl -a fetch-config -m ec2 -c file:/opt/aws/amazon-cloudwatch-agent/bin/config.json -s"]

/-- The instance `AppInstance`, in a public subnet with a public IP, booting
with the user data behind `WebSG`. -/
def instanceNode : ResourceNode :=
  { kind := .compute
    name := "AppInstance"
    params := [("vpc", .ref "AppVPC"),
               ("instanceType", .str "t3.micro"),
               ("machineImage", .str "AmazonLinux2"),
               ("role", .ref "EC2Role"),
               ("vpcSubnets", .subnet .publicSubnet),
               ("associatePublicIpAddress", .bool true),
               ("userData", .str userData.render),
               ("securityGroup", .ref "WebSG")] }

/-- The versioned log-storage bucket with 30-day expiration rules. -/
def bucketNode : ResourceNode :=
  { kind := .storage
    name := "LogStorageBucket"
    params := [("versioned", .bool true),
               ("removalPolicy", .str "DESTROY"),
               ("autoDeleteObjects", .bool true),
               ("lifecycleExpirationDays", .nat 30),
               ("noncurrentVersionExpirationDays", .nat 30)] }

/-- The log-shipping function's role, with the basic execution managed
policy and an inline `s3:PutObject` grant on the bucket. -/
def lambdaRole : Role :=
  (Role.mk "LambdaRole" "lambda.amazonaws.com" ""
      []).addManagedPolicy "service-role/AWSLambdaBasicExecutionRole"

/-- The graph node of the function's role, including its inline policy's
bucket reference. -/
def lambdaRoleNode : ResourceNode :=
  { lambdaRole.toNode with
      params := lambdaRole.toNode.params ++
        [("inlinePolicyActions", .strList ["s3:PutObject"]),
         ("inlinePolicyResource", .ref "LogStorageBucket")] }

/-- The log-shipping Python function `LogProcessor`.  (`bucket.grantWrite`
further grants the bucket's write actions to this function's role.) -/
def logProcessorNode : ResourceNode :=
  { kind := .lambdaFunction
    name := "LogProcessor"
    params := [("runtime", .str "python3.9"),
               ("handler", .str "index.handler"),
               ("codeAsset", .str "../lambda"),
               ("timeoutSeconds", .nat 30),
               ("role", .ref "LambdaRole"),
               ("environmentBucketName", .ref "LogStorageBucket")] }

/-- The subscription filter `LogFilter`, wiring the log group to the
function with the match-all pattern. -/
def logFilterNode : ResourceNode :=
  { kind := .subscriptionFilter
    name := "LogFilter"
    params := [("logGroup", .ref "AppLogGroup"),
               ("destination", .ref "LogProcessor"),
               ("filterPattern", .pat FilterPattern.allEvents)] }

/-- The resource graph the `Ec2LoggingStack` constructor declares, in
declaration order (with the destroy removal policy the constructor applies
to the log group at its end). -/
def graphNodes : List ResourceNode :=
  [vpcNode,
   ec2Role.toNode,
   logGroupNode.applyRemovalPolicy "DESTROY",
   securityGroup.toNode,
   instanceNode,
   bucketNode,
   lambdaRoleNode,
   logProcessorNode,
   logFilterNode]

/-- The `Ec2LoggingStack` builder: the stack produced from a
configuration. -/
def stack (props : StackProps) : Stack :=
  { region := props.region
    nodes := graphNodes }

/-- The configuration the application entry point passes to the stack. -/
def appProps : StackProps := ⟨"ap-northeast-1"⟩

/-- The stack as instantiated by the application entry point. -/
def app : Stack := stack appProps

end Ec2LoggingStack

/-- If some rank function strictly decreases along every reference edge of
a graph, the graph is acyclic. -/
theorem rank_acyclic (g : List ResourceNode) (f : String → Nat)
    (h : ∀ n ∈ g, ∀ r ∈ refsOf n, f r < f n.name) : Acyclic g := by
  have hedge : ∀ a b, edgeRel g a b → f b < f a := by
    rintro a b ⟨n, hn, rfl, hr⟩
    exact h n hn b hr
  have htrans : ∀ a b, Relation.TransGen (edgeRel g) a b → f b < f a := by
    intro a b hab
    induction hab with
    | single h1 => exact hedge _ _ h1
    | tail _ h2 ih => exact lt_trans (hedge _ _ h2) ih
  intro a hcyc
  exact lt_irrefl _ (htrans a a hcyc)

/-- Splitting a blob that starts with a newline-free chunk just moves the
chunk into the accumulator. -/
theorem splitLinesAux_append_of_no_nl (l : List Char) (h : '\n' ∉ l) :
    ∀ (cs acc : List Char),
      splitLinesAux (l ++ cs) acc = splitLinesAux cs (l.reverse ++ acc) := by
  induction l with
  | nil => intro cs acc; simp
  | cons c l ih =>
    intro cs acc
    have hc : ¬ (c = '\n') := fun e => h (e ▸ List.mem_cons_self c l)
    have hl : '\n' ∉ l := fun e => h (List.mem_cons_of_mem c e)
    simp only [List.cons_append, splitLinesAux, if_neg hc]
    rw [show List.append l cs = l ++ cs from rfl, ih hl cs (c :: acc)]
    simp [List.append_assoc]

/-- Splitting at newlines is a left inverse of joining with newlines, for a
nonempty list of newline-free lines. -/
theorem splitLinesAux_joinChars (ls : List (List Char)) (hne : ls ≠ [])
    (h : ∀ l ∈ ls, '\n' ∉ l) :
    splitLinesAux (joinChars ls) [] = ls := by
  induction ls with
  | nil => exact absurd rfl hne
  | cons l ls ih =>
    cases ls with
    | nil =>
      have := splitLinesAux_append_of_no_nl l (h l (List.mem_cons_self l [])) [] []
      simpa [joinChars, splitLinesAux] using this
    | cons l' ls' =>
      have hl : '\n' ∉ l := h l (List.mem_cons_self l (l' :: ls'))
      have hrest : ∀ x ∈ l' :: ls', '\n' ∉ x :=
        fun x hx => h x (List.mem_cons_of_mem l hx)
      show splitLinesAux (l ++ '\n' :: joinChars (l' :: ls')) [] = l :: l' :: ls'
      rw [splitLinesAux_append_of_no_nl l hl]
      simp only [splitLinesAux, if_pos rfl]
      rw [ih (by simp) hrest]
      simp

/-- Attaching the same managed policy twice in a row leaves the role as a
single attachment would. -/
theorem addManagedPolicy_idem (r : Role) (a : String) :
    (r.addManagedPolicy a).addManagedPolicy a = r.addManagedPolicy a := by
  unfold Role.addManagedPolicy
  by_cases hmem : a ∈ r.managedPolicyArns
  · simp [hmem]
  · simp [hmem]

/-- C1: In every graph either builder produces, every database node's
security groups admit ingress only on TCP port 3306 and only from a
security group attached to a compute-fleet node of the same graph — never
from a raw CIDR range — so the database is unreachable from any source
outside the declared fleet. -/
theorem db_ingress_only_from_fleet_sg (p : StackProps) :
    dbReachableOnlyFromFleet (AWSstack.stack p).nodes ∧
    dbReachableOnlyFromFleet (Ec2LoggingStack.stack p).nodes :=
  ⟨(by decide : dbReachableOnlyFromFleet AWSstack.graphNodes),
   (by decide : dbReachableOnlyFromFleet Ec2LoggingStack.graphNodes)⟩

/-- C2 counterexample: least-privilege chaining fails on the logging
stack's graph, where the compute instance's security group `WebSG` permits
inbound TCP port 80 from the open IPv4 range rather than from an ALB's
security group. -/
theorem compute_sg_open_port80_counterexample :
    ¬ leastPrivilegeChain Ec2LoggingStack.app.nodes := by decide

/-- C2 (amended): in every graph the `AWSstack` builder produces, the ALB's
security group permits inbound TCP port 80 from any IPv4 address and every
compute security group permits inbound TCP port 80 only from an ALB's
security group; the logging stack's compute security group instead permits
inbound TCP port 80 from any IPv4 address. -/
theorem alb_chain_in_wordpress_stack (p : StackProps) :
    leastPrivilegeChain (AWSstack.stack p).nodes ∧
    (∃ sg ∈ sgsOf Ec2LoggingStack.app.nodes Ec2LoggingStack.instanceNode,
       permitsTcp80FromAnywhere sg) :=
  ⟨(by decide : leastPrivilegeChain AWSstack.graphNodes), by decide⟩

/-- C3: both builders produce acyclic graphs with no dangling reference,
and the EC2-fleet/ALB wiring uses two distinct edge kinds: the fleet's
ingress holds a security-rule reference to the ALB's security group while
the listener's target group holds a target-membership edge to the fleet. -/
theorem graphs_acyclic_no_dangling (p : StackProps) :
    (Acyclic (AWSstack.stack p).nodes ∧ NoDangling (AWSstack.stack p).nodes) ∧
    (Acyclic (Ec2LoggingStack.stack p).nodes ∧
     NoDangling (Ec2LoggingStack.stack p).nodes) ∧
    ((RefKind.securityRuleRef, "ALBSecurityGroup") ∈ AWSstack.ec2SecurityGroup.toNode.refs ∧
     (RefKind.targetMembership, "WordPressASG") ∈ AWSstack.targetGroupNode.refs ∧
     RefKind.securityRuleRef ≠ RefKind.targetMembership) :=
  ⟨⟨rank_acyclic AWSstack.graphNodes
      (fun s => (nodeNames AWSstack.graphNodes).indexOf s) (by decide),
    (by decide : NoDangling AWSstack.graphNodes)⟩,
   ⟨rank_acyclic Ec2LoggingStack.graphNodes
      (fun s => (nodeNames Ec2LoggingStack.graphNodes).indexOf s) (by decide),
    (by decide : NoDangling Ec2LoggingStack.graphNodes)⟩,
   by decide, by decide, by decide⟩

/-- C4: in every graph either builder produces, each network node keeps
public and private subnets separate, and every node placed in a private
subnet sits in a VPC with a NAT egress path, has only security-group
sources (no address range) in its security groups' ingress rules, and is
not publicly accessible. -/
theorem private_placement_egress_only (p : StackProps) :
    (networksSeparated (AWSstack.stack p).nodes ∧
     privateEgressOnly (AWSstack.stack p).nodes) ∧
    (networksSeparated (Ec2LoggingStack.stack p).nodes ∧
     privateEgressOnly (Ec2LoggingStack.stack p).nodes) :=
  ⟨⟨(by decide : networksSeparated AWSstack.graphNodes),
    (by decide : privateEgressOnly AWSstack.graphNodes)⟩,
   ⟨(by decide : networksSeparated Ec2LoggingStack.graphNodes),
    (by decide : privateEgressOnly Ec2LoggingStack.graphNodes)⟩⟩

/-- C5: the logging stack's log-group declaration carries a retention
parameter equal to 7, and its subscription-filter declaration carries the
match-all pattern, which matches every incoming log event. -/
theorem log_retention_seven_and_match_all_filter :
    (∃ n ∈ Ec2LoggingStack.app.nodes, n.name = "AppLogGroup" ∧
       paramOf n "retention" = some (.nat 7)) ∧
    (∃ n ∈ Ec2LoggingStack.app.nodes, n.name = "LogFilter" ∧
       paramOf n "filterPattern" = some (.pat FilterPattern.allEvents) ∧
       paramOf n "logGroup" = some (.ref "AppLogGroup")) ∧
    ∀ event : String, FilterPattern.matches FilterPattern.allEvents event = true :=
  ⟨by decide, by decide, fun _ => rfl⟩

/-- C6: for every nonempty ordered list of command lines (none containing a
newline), splitting the generated bootstrap script blob on line boundaries
yields exactly the input command lines in their input order. -/
theorem bootstrap_script_preserves_lines (cmds : List String)
    (hne : cmds ≠ []) (h : ∀ c ∈ cmds, '\n' ∉ c.data) :
    scriptLines (UserData.forLinux.addCommands cmds).render =
      cmds.map String.data := by
  show splitLinesAux (joinChars ((([] : List String) ++ cmds).map String.data)) [] =
    cmds.map String.data
  rw [List.nil_append]
  refine splitLinesAux_joinChars _ ?_ ?_
  · simpa using hne
  · intro x hx
    obtain ⟨c, hc, rfl⟩ := List.mem_map.1 hx
    exact h c hc

/-- C6 witness: the logging stack's actual command list (including the
embedded multi-line file-write block) satisfies the hypotheses, and its
script blob splits back into exactly those lines. -/
theorem bootstrap_script_preserves_lines_witness :
    (Ec2LoggingStack.userData.lines ≠ [] ∧
     ∀ c ∈ Ec2LoggingStack.userData.lines, '\n' ∉ c.data) ∧
    scriptLines (UserData.forLinux.addCommands Ec2LoggingStack.userData.lines).render =
      Ec2LoggingStack.userData.lines.map String.data :=
  ⟨⟨by decide, by decide⟩,
   bootstrap_script_preserves_lines Ec2LoggingStack.userData.lines
     (by decide) (by decide)⟩

/-- C7: each builder is a deterministic function of its configuration: two
runs on the same configuration produce structurally identical stacks. -/
theorem builder_deterministic (p q : StackProps) (h : p = q) :
    AWSstack.stack p = AWSstack.stack q ∧
    Ec2LoggingStack.stack p = Ec2LoggingStack.stack q := by
  subst h
  exact ⟨rfl, rfl⟩

/-- C7 witness: at the application's configuration. -/
theorem builder_deterministic_witness :
    Ec2LoggingStack.appProps = Ec2LoggingStack.appProps ∧
    (AWSstack.stack Ec2LoggingStack.appProps =
       AWSstack.stack Ec2LoggingStack.appProps ∧
     Ec2LoggingStack.stack Ec2LoggingStack.appProps =
       Ec2LoggingStack.stack Ec2LoggingStack.appProps) :=
  ⟨rfl, builder_deterministic Ec2LoggingStack.appProps Ec2LoggingStack.appProps rfl⟩

/-- C8: attaching the same managed policy to a role twice in a row is an
idempotent no-op, and in particular the logging stack's instance role,
built by two consecutive `CloudWatchAgentServerPolicy` attachments, equals
the role a single attachment produces. -/
theorem duplicate_managed_policy_attach_idempotent :
    (∀ (r : Role) (a : String),
       (r.addManagedPolicy a).addManagedPolicy a = r.addManagedPolicy a) ∧
    Ec2LoggingStack.ec2Role =
      (Role.mk "EC2Role" "ec2.amazonaws.com" "" []).addManagedPolicy
        "CloudWatchAgentServerPolicy" :=
  ⟨addManagedPolicy_idem, by decide⟩

/-- C9: the logging stack's instance security group `WebSG` carries exactly
three ingress rules, admitting TCP from any IPv4 address on ports 80, 22
and 443, and it is the security group attached to the compute instance. -/
theorem logging_sg_exactly_three_open_rules :
    Ec2LoggingStack.securityGroup.toNode.ingress =
      [⟨Peer.anyIpv4, Port.tcp 80, "Allow HTTP traffic"⟩,
       ⟨Peer.anyIpv4, Port.tcp 22, "Allow SSH"⟩,
       ⟨Peer.anyIpv4, Port.tcp 443, "Allow HTTPS traffic"⟩] ∧
    Ec2LoggingStack.securityGroup.toNode ∈ Ec2LoggingStack.app.nodes ∧
    paramOf Ec2LoggingStack.instanceNode "securityGroup" =
      some (.ref "WebSG") := by
  decide

set_option maxRecDepth 20000 in
/-- C10: the log-group names embedded in the bootstrap script's
CloudWatch-agent configuration are exactly two occurrences of
`/ec2/app/logs`, the very `logGroupName` of the declared log-group node
that the subscription filter is attached to. -/
theorem agent_config_matches_declared_log_group :
    (∃ n ∈ Ec2LoggingStack.app.nodes, n.name = "AppLogGroup" ∧
       paramOf n "logGroupName" = some (.str "/ec2/app/logs")) ∧
    extractKeyed logGroupNameKey (Ec2LoggingStack.userData.render).data =
      ["/ec2/app/logs".data, "/ec2/app/logs".data] ∧
    paramOf Ec2LoggingStack.instanceNode "userData" =
      some (.str Ec2LoggingStack.userData.render) ∧
    (∃ n ∈ Ec2LoggingStack.app.nodes, n.name = "LogFilter" ∧
       paramOf n "logGroup" = some (.ref "AppLogGroup")) :=
  ⟨by decide, by decide, by decide, by decide⟩
